import Mathlib

/-!
Verification of the `react-native-demo-api` gRPC server (Rust) against its
natural-language specification.  The development shallowly embeds the parts
of the source the claims are about:

* `src/app/util/error.rs` — the `ServiceError` enum and its classification
  `get_code` (status code) together with the Sentry capture severity emitted
  by each arm;
* `src/app/middleware/cookie/service.rs` — session resolution
  (`inspect_request_metadata`, `insert_empty_extension`) over a model of the
  Redis `GETEX key EX 86400` get-and-refresh operation;
* `src/app/interceptor/cookie_session.rs` — the authorization gate;
* `src/app/util/stream.rs` — `ClientCancellableStream` (drop fires the
  notifier once) as a lifecycle step relation;
* `src/app/service/test_message.rs` — the `event_message` server-streaming
  producer loop.

External crates (reqwest, redis, lapin, uuid, cookie, tokio) are modelled at
their interfaces: error values carry exactly the observations (`is_timeout`,
`is_panic`, …) the source inspects, and `uuid::Uuid::parse_str` is a
parameter of the resolution function since its internals are never relied on.
-/

deriving instance DecidableEq for Except

namespace Demo

/-- gRPC status codes (`tonic::Code`). -/
inductive Code where
  | Ok
  | Cancelled
  | Unknown
  | InvalidArgument
  | DeadlineExceeded
  | NotFound
  | AlreadyExists
  | PermissionDenied
  | ResourceExhausted
  | FailedPrecondition
  | Aborted
  | OutOfRange
  | Unimplemented
  | Internal
  | Unavailable
  | DataLoss
  | Unauthenticated
  deriving DecidableEq, Repr

/-- Severity of the event sent to the error-reporting sink by a
classification arm: `capture_warning`, `capture_error` or `capture_fatal`
(`src/app/util/sentry.rs` helpers used in `error.rs`). -/
inductive Capture where
  | warning
  | error
  | fatal
  deriving DecidableEq, Repr

/-- `reqwest::Error`, modelled by the predicates `get_code` inspects.
In the crate the predicates are derived from one underlying kind but the
source only ever consults them through these boolean tests, in this order. -/
structure ReqwestError where
  is_body : Bool
  is_builder : Bool
  is_connect : Bool
  is_decode : Bool
  is_redirect : Bool
  is_timeout : Bool
  is_request : Bool
  is_status : Bool
  deriving DecidableEq, Repr

/-- `redis::RedisError`, modelled by the predicates `get_code` inspects
(the guards are evaluated in source order, so overlapping predicates
resolve to the first matching arm exactly as in the Rust `match`). -/
structure RedisError where
  is_timeout : Bool
  is_cluster_error : Bool
  is_connection_dropped : Bool
  is_connection_refusal : Bool
  is_io_error : Bool
  deriving DecidableEq, Repr

/-- `lapin::Error` constructors matched in `error.rs` (payloads elided:
the source only logs them). `Other` stands for the `_` arm. -/
inductive LapinError where
  | ChannelsLimitReached
  | InvalidProtocolVersion
  | InvalidChannel
  | InvalidChannelState
  | InvalidConnectionState
  | IOError
  | ParsingError
  | ProtocolError
  | SerialisationError
  | Other
  deriving DecidableEq, Repr

/-- `tokio::task::JoinError`, modelled by the two predicates inspected. -/
structure JoinError where
  is_panic : Bool
  is_cancelled : Bool
  deriving DecidableEq, Repr

/-- Opaque payload of `uuid::Error` (only logged by the source). -/
structure UuidError where
  msg : String
  deriving DecidableEq, Repr

/-- Opaque payload of `cookie::ParseError` (only logged by the source). -/
structure CookieParseError where
  msg : String
  deriving DecidableEq, Repr

/-- Opaque payload of `http::header::ToStrError` (only logged). -/
structure ToStrError where
  msg : String
  deriving DecidableEq, Repr

/-- Opaque payload of `std::num::ParseIntError`. -/
structure ParseIntError where
  msg : String
  deriving DecidableEq, Repr

/-- Opaque payload of `std::str::Utf8Error`. -/
structure Utf8Error where
  msg : String
  deriving DecidableEq, Repr

/-- Opaque payload of `tokio::sync::oneshot::error::RecvError`. -/
structure RecvError where
  msg : String
  deriving DecidableEq, Repr

/-- Opaque payload of `tokio::sync::AcquireError`. -/
structure AcquireError where
  msg : String
  deriving DecidableEq, Repr

/-- Opaque payload of `rmp_serde` encode/decode errors. -/
structure MsgPackError where
  msg : String
  deriving DecidableEq, Repr

/-- The `ServiceError` enum of `src/app/util/error.rs` (commented-out
variants omitted, as in the source). -/
inductive ServiceError where
  | Reqwest (e : ReqwestError)
  | Redis (e : RedisError)
  | MiddlewareNotSet (name : String)
  | ConfigNotSet
  | RcHasReference
  | ParseMessage (m : String)
  | ValidateFailure (field : String) (reason : String)
  | ParseInt (e : ParseIntError)
  | ParseUtf8 (e : Utf8Error)
  | BadCredential
  | Rejected (m : String)
  | Uuid (e : UuidError)
  | TryFrom (field : String) (from_ : String) (into : String) (expect : String)
  | EmptySliceIndex (i : Nat)
  | LapinAMQP (e : LapinError)
  | SendError
  | OneshotRecvError (e : RecvError)
  | TaskJoinError (e : JoinError)
  | SemaphoreAquire (e : AcquireError)
  | QueueDeclareTimeout
  | QueueBindTimeout
  | QueueBasicConsumeTimeout
  | QueueBasicAckTimeout
  | ClientTimeout
  | CookieParse (e : CookieParseError)
  | HttpHeader (e : ToStrError)
  | HttpHeaderNotFound
  | MsgPackDecodeError (e : MsgPackError)
  | MsgPackEncodeError (e : MsgPackError)
  deriving DecidableEq, Repr

/-- `ServiceError::get_code` (`error.rs` lines 98–399): the pure mapping to
the gRPC status code.  Guard chains are translated arm-for-arm in source
order; the trailing `_ => Code::Unknown` arm is unreachable (the Rust
compiler marks it `#[allow(unreachable_patterns)]`) and hence absent. -/
def ServiceError.get_code : ServiceError → Code
  | .Reqwest e =>
      if e.is_body then .InvalidArgument
      else if e.is_builder then .Internal
      else if e.is_connect then .Unavailable
      else if e.is_decode then .FailedPrecondition
      else if e.is_redirect then .Internal
      else if e.is_timeout then .DeadlineExceeded
      else if e.is_request then .FailedPrecondition
      else if e.is_status then .FailedPrecondition
      else .Internal
  | .Redis e =>
      if e.is_timeout then .FailedPrecondition
      else if e.is_cluster_error then .Unavailable
      else if e.is_connection_dropped then .Unavailable
      else if e.is_connection_refusal then .Unavailable
      else if e.is_io_error then .Internal
      else .Unavailable
  | .MiddlewareNotSet _ => .Internal
  | .ConfigNotSet => .Internal
  | .ParseMessage _ => .Internal
  | .RcHasReference => .Internal
  | .ValidateFailure _ _ => .InvalidArgument
  | .ParseInt _ => .InvalidArgument
  | .ParseUtf8 _ => .InvalidArgument
  | .BadCredential => .Unauthenticated
  | .Rejected _ => .PermissionDenied
  | .Uuid _ => .InvalidArgument
  | .TryFrom _ _ _ _ => .DataLoss
  | .EmptySliceIndex _ => .FailedPrecondition
  | .LapinAMQP e =>
      match e with
      | .ChannelsLimitReached => .ResourceExhausted
      | .InvalidProtocolVersion => .Internal
      | .InvalidChannel => .FailedPrecondition
      | .InvalidChannelState => .Unavailable
      | .InvalidConnectionState => .Unavailable
      | .IOError => .Internal
      | .ParsingError => .FailedPrecondition
      | .ProtocolError => .Internal
      | .SerialisationError => .FailedPrecondition
      | .Other => .Internal
  | .SendError => .FailedPrecondition
  | .OneshotRecvError _ => .FailedPrecondition
  | .TaskJoinError e =>
      if e.is_panic then .Internal
      else if !e.is_cancelled then .Internal
      else .Cancelled
  | .SemaphoreAquire _ => .FailedPrecondition
  | .QueueDeclareTimeout => .DeadlineExceeded
  | .QueueBindTimeout => .DeadlineExceeded
  | .QueueBasicConsumeTimeout => .DeadlineExceeded
  | .QueueBasicAckTimeout => .DeadlineExceeded
  | .ClientTimeout => .DeadlineExceeded
  | .CookieParse _ => .FailedPrecondition
  | .HttpHeader _ => .FailedPrecondition
  | .HttpHeaderNotFound => .Internal
  | .MsgPackDecodeError _ => .FailedPrecondition
  | .MsgPackEncodeError _ => .FailedPrecondition

/-- The error-reporting side channel of the same `match`: which
`capture_warning` / `capture_error` / `capture_fatal` call each arm makes
(`none` for arms that report nothing, e.g. `BadCredential`,
`ValidateFailure`, `TryFrom`, the fixed timeouts, and a cancelled task). -/
def ServiceError.capture : ServiceError → Option Capture
  | .Reqwest e =>
      if e.is_body then some .warning
      else if e.is_builder then some .fatal
      else if e.is_connect then some .error
      else if e.is_decode then some .warning
      else if e.is_redirect then some .warning
      else if e.is_timeout then some .warning
      else if e.is_request then some .error
      else if e.is_status then some .warning
      else some .error
  | .Redis e =>
      if e.is_timeout then some .warning
      else if e.is_cluster_error then some .error
      else if e.is_connection_dropped then some .warning
      else if e.is_connection_refusal then some .error
      else if e.is_io_error then some .fatal
      else some .warning
  | .MiddlewareNotSet _ => some .fatal
  | .ConfigNotSet => some .fatal
  | .ParseMessage _ => some .error
  | .RcHasReference => some .fatal
  | .ValidateFailure _ _ => none
  | .ParseInt _ => some .warning
  | .ParseUtf8 _ => some .warning
  | .BadCredential => none
  | .Rejected _ => some .warning
  | .Uuid _ => some .warning
  | .TryFrom _ _ _ _ => none
  | .EmptySliceIndex _ => some .warning
  | .LapinAMQP e =>
      match e with
      | .ChannelsLimitReached => some .warning
      | .InvalidProtocolVersion => some .fatal
      | .InvalidChannel => some .error
      | .InvalidChannelState => some .error
      | .InvalidConnectionState => some .error
      | .IOError => some .fatal
      | .ParsingError => some .error
      | .ProtocolError => some .fatal
      | .SerialisationError => some .error
      | .Other => some .fatal
  | .SendError => some .warning
  | .OneshotRecvError _ => some .warning
  | .TaskJoinError e =>
      if e.is_panic then some .fatal
      else if !e.is_cancelled then some .warning
      else none
  | .SemaphoreAquire _ => some .warning
  | .QueueDeclareTimeout => none
  | .QueueBindTimeout => none
  | .QueueBasicConsumeTimeout => none
  | .QueueBasicAckTimeout => none
  | .ClientTimeout => none
  | .CookieParse _ => some .warning
  | .HttpHeader _ => some .warning
  | .HttpHeaderNotFound => some .warning
  | .MsgPackDecodeError _ => some .warning
  | .MsgPackEncodeError _ => some .warning

/-- A call `self.get_code()` through a shared reference `&self`: it returns
the classification (status code plus the capture it emits) and leaves the
error value untouched — the Rust signature `fn get_code(&self) -> Code`
cannot mutate `self`. -/
def classifyCall (e : ServiceError) : (Code × Option Capture) × ServiceError :=
  ((e.get_code, e.capture), e)

/-! ## Session resolution (`src/app/middleware/cookie/service.rs`) -/

/-- The verified identity (`uuid::Uuid`), modelled as an opaque wrapper:
the source never looks inside one, it only parses strings into them. -/
structure Uuid where
  val : String
  deriving DecidableEq, Repr

/-- `CookieSession { sid, uid }`. -/
structure CookieSession where
  sid : String
  uid : Uuid
  deriving DecidableEq, Repr

/-- `CookieSessionContainer(pub Option<CookieSession>)`: the request
extension written by the middleware and read by the interceptor. -/
structure CookieSessionContainer where
  session : Option CookieSession
  deriving DecidableEq, Repr

/-- The external key-value store (Redis) behind the `ConnectionManager`:
per-key value and remaining-expiry maps, plus a network-failure mode
(`ok = false` makes every query fail with `err`, modelling a lost
connection — the source sees that as `Err(RedisError)`). -/
structure Store where
  ok : Bool
  err : RedisError
  value : String → Option String
  expiry : String → Option Int

/-- Reset the expiry of `key` to `seconds`, leaving the rest alone. -/
def Store.refreshExpiry (s : Store) (key : String) (seconds : Int) : Store :=
  { s with expiry := fun k => if k = key then some seconds else s.expiry k }

/-- The `GETEX key EX seconds` round-trip issued by
`inspect_request_metadata`: atomically read `key` and, when it exists,
reset its expiry to `seconds`.  A missing key returns `Ok(None)` and
changes nothing; a network failure returns `Err` and changes nothing. -/
def Store.getex (s : Store) (key : String) (seconds : Int) :
    Except RedisError (Option String) × Store :=
  if s.ok then
    match s.value key with
    | some v => (.ok (some v), s.refreshExpiry key seconds)
    | none => (.ok none, s)
  else (.error s.err, s)

/-- `time::Duration::hours(24).whole_seconds()`: the rolling session
window passed as the `EX` argument on both resolution paths. -/
def sessionExpirySeconds : Int := 24 * 60 * 60

/-- Split a character list at its first `=`, as `Cookie::parse` does to
separate a cookie's name from its value (the value may itself contain
`=`); `none` when the string has no `=` at all. -/
def splitFirstEq : List Char → Option (List Char × List Char)
  | [] => none
  | c :: rest =>
      if c = '=' then some ([], rest)
      else (splitFirstEq rest).map (fun p => (c :: p.1, p.2))

/-- `cookie::Cookie::parse` at its interface: a cookie string is
`name=value`; a string with no `=` fails to parse.  Returns the
`(name, value)` pair. -/
def cookieParse (s : String) : Except CookieParseError (String × String) :=
  match splitFirstEq s.data with
  | none => .error ⟨s⟩
  | some (name, value) => .ok (⟨name⟩, ⟨value⟩)

/-- `header.split("; ")`: split a character list at every (non-
overlapping, leftmost-first) occurrence of the two-character separator
`"; "`, exactly as the source splits the raw `cookie` header. -/
def splitSemiSp : List Char → List (List Char)
  | [] => [[]]
  | ';' :: ' ' :: rest => [] :: splitSemiSp rest
  | c :: rest =>
      match splitSemiSp rest with
      | [] => [[c]]
      | p :: ps => (c :: p) :: ps

/-- The jar-building loop of `inspect_request_metadata`: split the raw
`cookie` header on `"; "`, parse each piece, stop at the first parse
error (`try_for_each`), and collect the cookies into the jar. -/
def buildJar (raw : String) :
    Except CookieParseError (List (String × String)) :=
  (splitSemiSp raw.data).foldlM
    (fun jar c => (cookieParse ⟨c⟩).map (fun ck => jar ++ [ck])) []

/-- `CookieJar::get(name)`: the cookie stored under `name`.  `add`
replaces an existing cookie of the same name, so the last one wins. -/
def jarGet (jar : List (String × String)) (name : String) : Option String :=
  (jar.reverse.find? (fun c => c.1 = name)).map (fun c => c.2)

/-- `inspect_request_metadata` (service.rs lines 78–166).  Inputs mirror
what the source computes before its `match`:

* `uuidParse` — `uuid::Uuid::parse_str`, an external-crate parameter;
* `cookieHeader` — the raw `cookie` header if present, already run
  through `to_str` (which can fail on non-ASCII bytes);
* `sessionHeader` — likewise for the `Session` header;
* `pool` — the `ConnectionManager` extension, if the config middleware
  attached one, paired with the store it reaches.

The result is the outcome written into the request extensions (`some`
session, or `none` when nothing was inserted) or the `ServiceError` that
aborts the chain, together with the store state after any `GETEX`.
The seven `match` arms are translated in source order. -/
def inspect_request_metadata (uuidParse : String → Except UuidError Uuid)
    (cookieHeader : Option (Except ToStrError String))
    (sessionHeader : Option (Except ToStrError String))
    (pool : Option Store) :
    Except ServiceError (Option CookieSession) × Option Store :=
  let header : Option (Except ToStrError
      (Except CookieParseError (List (String × String)))) :=
    cookieHeader.map (fun r => r.map buildJar)
  match header, sessionHeader, pool with
  | some (.ok (.ok jar)), _, some store =>
      match jarGet jar "session" with
      | some cred =>
          let res := store.getex cred sessionExpirySeconds
          match (res.1.map (fun uid? => uid?.map uuidParse) :
              Except RedisError (Option (Except UuidError Uuid))) with
          | .ok (some (.ok uid)) => (.ok (some ⟨cred, uid⟩), some res.2)
          | .ok (some (.error e)) => (.error (.Uuid e), some res.2)
          | .ok none => (.error .BadCredential, some res.2)
          | .error e => (.error (.Redis e), some res.2)
      | none => (.ok none, some store)
  | _, some (.ok sid), some store =>
      let res := store.getex sid sessionExpirySeconds
      match (res.1.map (fun uid? => uid?.map uuidParse) :
          Except RedisError (Option (Except UuidError Uuid))) with
      | .ok (some (.ok uid)) => (.ok (some ⟨sid, uid⟩), some res.2)
      | .ok (some (.error e)) => (.error (.Uuid e), some res.2)
      | .ok none => (.error .BadCredential, some res.2)
      | .error e => (.error (.Redis e), some res.2)
  | some (.ok (.error e)), _, p => (.error (.CookieParse e), p)
  | some (.error e), _, p => (.error (.HttpHeader e), p)
  | _, some (.error e), p => (.error (.HttpHeader e), p)
  | _, _, none => (.error (.MiddlewareNotSet "config"), none)
  | _, none, p => (.ok none, p)

/-- `CookieMiddleware::call` as seen by the inner handler:
`inspect_request_metadata(&mut req).await?` then
`insert_empty_extension(&mut req)` — so on success the inner handler
always finds a `CookieSessionContainer`, empty when resolution inserted
nothing, and on error the inner handler is never invoked. -/
def resolveSession (uuidParse : String → Except UuidError Uuid)
    (cookieHeader sessionHeader : Option (Except ToStrError String))
    (pool : Option Store) :
    Except ServiceError CookieSessionContainer × Option Store :=
  match inspect_request_metadata uuidParse cookieHeader sessionHeader pool with
  | (.ok s, st) => (.ok ⟨s⟩, st)
  | (.error e, st) => (.error e, st)

/-- `cookie_session_interceptor` (`src/app/interceptor/cookie_session.rs`):
the authorization gate reads the container out of the request extensions
(`none` = the cookie middleware never ran). -/
def cookie_session_interceptor (ext : Option CookieSessionContainer) :
    Except ServiceError Unit :=
  match ext with
  | some container =>
      match container.session with
      | some _ => .ok ()
      | none => .error .BadCredential
  | none => .error (.MiddlewareNotSet "cookie")

/-! ## Server-streaming producer (`src/app/service/test_message.rs`,
`event_message`) and the cancellable stream (`src/app/util/stream.rs`). -/

/-- The item sent in round `round` (0-based loop variable):
`format!("message: {}", round + 1)`. -/
def roundItem (round : Nat) : String := "message: " ++ toString (round + 1)

/-- The observable outcome of one producer run: how many times
`responder.send(..).await` was called, and which items actually entered
the channel (the receiver was still connected). -/
structure ProducerRun where
  attempts : Nat
  delivered : List String
  deriving DecidableEq, Repr

/-- One iteration of the `for round in 0..config.count` loop body of
`event_message`: sleep (time-free here), then `responder.send(..)`.
`openAt round` tells whether the client side of the channel is still
connected when round `round` sends.  A failed send (`Err`, receiver gone)
is only logged — `error!("response failed: {}", error)` — and the loop
continues to the next round; nothing breaks out of the loop. -/
def producerStep (openAt : Nat → Bool) (acc : ProducerRun) (round : Nat) :
    ProducerRun :=
  if openAt round then
    { attempts := acc.attempts + 1, delivered := acc.delivered ++ [roundItem round] }
  else
    { attempts := acc.attempts + 1, delivered := acc.delivered }

/-- The whole producer task spawned by `event_message`: iterate the loop
body over rounds `0..count`.  When the task body returns, `responder`
(the only `mpsc::Sender`) is dropped, so the receiver subsequently yields
end-of-stream: a finite `delivered` list is exactly a stream that emits
its elements in order and then closes cleanly. -/
def event_message_producer (count : Nat) (openAt : Nat → Bool) : ProducerRun :=
  (List.range count).foldl (producerStep openAt) ⟨0, []⟩

/-- Characterisation of the producer loop: every round performs a send
attempt (the loop never exits early), and exactly the rounds at which the
receiver is still connected deliver their item, in round order. -/
theorem event_message_producer_spec (openAt : Nat → Bool) (count : Nat) :
    event_message_producer count openAt =
      ⟨count, ((List.range count).filter openAt).map roundItem⟩ := by
  induction count with
  | zero => rfl
  | succ n ih =>
      unfold event_message_producer at *
      rw [List.range_succ, List.foldl_append, ih, List.filter_append,
        List.map_append]
      by_cases h : openAt n <;>
        simp [producerStep, h, List.filter, List.map]

/-- Lifecycle state of one `ClientCancellableStream` value. -/
inductive StreamState where
  | live
  | dropped
  deriving DecidableEq, Repr

/-- A stream instance together with its shared `Arc<Notify>`:
`fires` counts the `notify_one` calls made on the notifier. -/
structure StreamWorld where
  state : StreamState
  fires : Nat
  deriving DecidableEq, Repr

/-- `ClientCancellableStream::new()`: a live stream whose notifier has
never fired. -/
def newStreamWorld : StreamWorld := ⟨.live, 0⟩

/-- Events in the life of one stream value.  `poll` is `poll_next`
(delegates to `poll_recv`, touches the notifier not at all).  `teardown`
is the `Drop` implementation — `self.notifier.notify_one()` exactly once —
and is only enabled while the value is live: Rust ownership destroys the
value as part of the drop, so a second teardown attempt, concurrent or
later, has no value left to act on. -/
inductive StreamStep : StreamWorld → StreamWorld → Prop where
  | poll (n : Nat) : StreamStep ⟨.live, n⟩ ⟨.live, n⟩
  | teardown (n : Nat) : StreamStep ⟨.live, n⟩ ⟨.dropped, n + 1⟩

/-- Reachability along any interleaving of lifecycle events. -/
def StreamReach : StreamWorld → StreamWorld → Prop :=
  Relation.ReflTransGen StreamStep

/-! ## Concrete fixtures used by witnesses and counterexamples. -/

/-- A Redis error value with every kind predicate false. -/
def plainRedisError : RedisError := ⟨false, false, false, false, false⟩

/-- A reachable store holding no session at all. -/
def emptyStore : Store := ⟨true, plainRedisError, fun _ => none, fun _ => none⟩

/-- A reachable store holding one well-formed session record:
`"abc123" ↦ "11111111-2222-3333-4444-555555555555"`. -/
def fixtureStore : Store :=
  ⟨true, plainRedisError,
   fun k => if k = "abc123" then some "11111111-2222-3333-4444-555555555555" else none,
   fun _ => none⟩

/-- A reachable store whose record under `"abc123"` is malformed: the
stored value `"not-a-uuid"` is not a UUID. -/
def malformedStore : Store :=
  ⟨true, plainRedisError,
   fun k => if k = "abc123" then some "not-a-uuid" else none,
   fun _ => none⟩

/-- Interface model of `Uuid::parse_str` on inputs it accepts. -/
def acceptParse : String → Except UuidError Uuid := fun s => .ok ⟨s⟩

/-- Interface model of `Uuid::parse_str` on inputs it rejects. -/
def rejectParse : String → Except UuidError Uuid := fun s => .error ⟨s⟩

/-! ## Claims -/

/-- C7: classification is a pure function of the error value.  A call
`e.get_code()` goes through a shared reference: it leaves the error value
unchanged, and classifying the value it leaves behind again yields the
same status code and the same capture severity. -/
theorem classification_pure_and_idempotent (e : ServiceError) :
    (classifyCall e).2 = e ∧
    (classifyCall (classifyCall e).2).1 = (classifyCall e).1 :=
  ⟨rfl, rfl⟩

/-- C8: the key-value store classification table.  For every Redis error,
`get_code`/`capture` follow exactly: timeout → failed-precondition/warn;
cluster error → unavailable/error; connection dropped → unavailable/warn;
connection refused → unavailable/error; I/O error → internal/fatal;
anything else → unavailable/warn — with the source's guard precedence. -/
theorem redis_error_classification (e : RedisError) :
    ((ServiceError.Redis e).get_code, (ServiceError.Redis e).capture) =
      if e.is_timeout then (Code.FailedPrecondition, some Capture.warning)
      else if e.is_cluster_error then (Code.Unavailable, some Capture.error)
      else if e.is_connection_dropped then (Code.Unavailable, some Capture.warning)
      else if e.is_connection_refusal then (Code.Unavailable, some Capture.error)
      else if e.is_io_error then (Code.Internal, some Capture.fatal)
      else (Code.Unavailable, some Capture.warning) := by
  obtain ⟨t, c, d, r, i⟩ := e
  cases t <;> cases c <;> cases d <;> cases r <;> cases i <;> rfl

/-- C5: the authorization gate.  A missing container (the cookie
middleware never ran) fails with `MiddlewareNotSet("cookie")`, classified
internal and captured fatal; a present-but-empty container fails with the
distinct `BadCredential`, classified unauthenticated; and the gate lets a
request through exactly when a resolved session is present — a
misconfigured chain can never silently pass. -/
theorem authorization_gate_classification :
    (cookie_session_interceptor none = .error (.MiddlewareNotSet "cookie") ∧
      (ServiceError.MiddlewareNotSet "cookie").get_code = Code.Internal ∧
      (ServiceError.MiddlewareNotSet "cookie").capture = some Capture.fatal) ∧
    (cookie_session_interceptor (some ⟨none⟩) = .error .BadCredential ∧
      ServiceError.BadCredential.get_code = Code.Unauthenticated ∧
      ServiceError.BadCredential.get_code ≠
        (ServiceError.MiddlewareNotSet "cookie").get_code) ∧
    (∀ ext, cookie_session_interceptor ext = .ok () ↔
      ∃ s, ext = some ⟨some s⟩) := by
  refine ⟨⟨rfl, rfl, rfl⟩, ⟨rfl, rfl, by decide⟩, ?_⟩
  intro ext
  match ext with
  | none => simp [cookie_session_interceptor]
  | some ⟨none⟩ => simp [cookie_session_interceptor]
  | some ⟨some s⟩ => simp [cookie_session_interceptor]

/-- C6: the cancellation notifier fires exactly once per stream lifetime.
Along every event sequence from a fresh stream, the notifier has fired at
most once, and it has fired exactly once precisely when the stream has
been torn down — a second teardown is impossible because the drop
destroys the value. -/
theorem notifier_fires_exactly_once (w : StreamWorld)
    (h : StreamReach newStreamWorld w) :
    w.fires ≤ 1 ∧ (w.state = .dropped ↔ w.fires = 1) := by
  have inv : (w.state = .live ∧ w.fires = 0) ∨
      (w.state = .dropped ∧ w.fires = 1) := by
    induction h with
    | refl => exact Or.inl ⟨rfl, rfl⟩
    | tail _ step ih =>
        cases step with
        | poll n => exact ih
        | teardown n =>
            rcases ih with ⟨_, h0⟩ | ⟨hst, _⟩
            · simp_all
            · simp at hst
  rcases inv with ⟨hs, hf⟩ | ⟨hs, hf⟩ <;> rw [hs, hf] <;> simp

/-- Closed instance of C6's theorem: the run that polls once and is then
torn down ends with the notifier fired exactly once. -/
theorem notifier_fires_exactly_once_witness :
    (⟨.dropped, 1⟩ : StreamWorld).fires ≤ 1 ∧
      ((⟨.dropped, 1⟩ : StreamWorld).state = .dropped ↔
        (⟨.dropped, 1⟩ : StreamWorld).fires = 1) :=
  notifier_fires_exactly_once ⟨.dropped, 1⟩
    (Relation.ReflTransGen.head (StreamStep.poll 0)
      (Relation.ReflTransGen.single (StreamStep.teardown 0)))

/-- C9: the server-streaming scenario.  With the client connected
throughout, the producer delivers one item per round, `"message: N"` for
`N` in `1..=count`, in order; for `count = 3` that is exactly
`["message: 1", "message: 2", "message: 3"]`, after which the task
returns, the sender is dropped and the stream closes cleanly (the
delivered list is exhausted). -/
theorem event_message_stream_output (count : Nat) :
    (event_message_producer count (fun _ => true)).delivered =
      (List.range count).map roundItem ∧
    event_message_producer 3 (fun _ => true) =
      ⟨3, ["message: 1", "message: 2", "message: 3"]⟩ := by
  refine ⟨?_, by decide⟩
  rw [event_message_producer_spec]
  simp

/-- C1 counterexample: the claim says that after the client drops the
stream having received 1 of 3 items, the producer performs no further
sends.  On the code, with `count = 3` and the receiver gone from round 1
on, only `"message: 1"` is delivered — but the producer still performs 3
send attempts in total (two of them after the disconnect), because a
failed `responder.send` is merely logged and the `for` loop continues. -/
theorem event_message_stop_on_disconnect_cex :
    (event_message_producer 3 (fun r => r == 0)).delivered = ["message: 1"] ∧
    (event_message_producer 3 (fun r => r == 0)).attempts = 3 ∧
    (3 : Nat) ≠ 1 := by decide

/-- The rounds below `d` among `0..n`, in order. -/
theorem filter_lt_range_eq (d n : Nat) :
    (List.range n).filter (fun r => decide (r < d)) = List.range (min d n) := by
  induction n with
  | zero => simp
  | succ m ih =>
      rw [List.range_succ, List.filter_append, ih]
      by_cases h : m < d
      · have h1 : min d (m + 1) = m + 1 := by omega
        have h2 : min d m = m := by omega
        rw [h1, h2, List.range_succ]
        congr 1
        simp [h]
      · have h1 : min d (m + 1) = min d m := by omega
        rw [h1]
        simp [h]

/-- C1 as amended: a send failure is not treated as terminal.  After the
client drops at round `dropRound`, no further item is ever enqueued (the
delivered sequence is exactly the items of the rounds before the drop),
but the producer does not stop: it performs one send attempt for every
round up to `count`, each post-drop attempt failing and being logged; the
cancellation notifier is never consulted (it is discarded at creation
with `..`). -/
theorem event_message_continues_after_disconnect (count dropRound : Nat) :
    (event_message_producer count (fun r => decide (r < dropRound))).attempts
        = count ∧
    (event_message_producer count (fun r => decide (r < dropRound))).delivered
        = (List.range (min dropRound count)).map roundItem := by
  rw [event_message_producer_spec, filter_lt_range_eq]
  exact ⟨rfl, rfl⟩

/-- C3: a well-formed credential that is absent from the store — whether
presented as a cookie named `session` or as a `Session` header — resolves
to `BadCredential`, whose status is `Unauthenticated`; it is neither an
internal error nor a `Uuid` parse error. -/
theorem unknown_credential_unauthenticated
    (uuidParse : String → Except UuidError Uuid)
    (sessionHeader : Option (Except ToStrError String))
    (store : Store) (raw cred : String) (jar : List (String × String))
    (hok : store.ok = true) (habsent : store.value cred = none)
    (hjar : buildJar raw = .ok jar) (hget : jarGet jar "session" = some cred) :
    (inspect_request_metadata uuidParse (some (.ok raw)) sessionHeader
        (some store)).1 = .error .BadCredential ∧
    (inspect_request_metadata uuidParse none (some (.ok cred))
        (some store)).1 = .error .BadCredential ∧
    ServiceError.BadCredential.get_code = Code.Unauthenticated ∧
    ServiceError.BadCredential.get_code ≠ Code.Internal ∧
    ∀ e : UuidError, ServiceError.BadCredential ≠ .Uuid e := by
  refine ⟨?_, ?_, rfl, by decide, fun e h => ServiceError.noConfusion h⟩
  · rcases sessionHeader with _ | r
    · simp [inspect_request_metadata, Except.map, hjar, hget, Store.getex,
        hok, habsent]
    · rcases r with e | s <;>
        simp [inspect_request_metadata, Except.map, hjar, hget, Store.getex,
          hok, habsent]
  · simp [inspect_request_metadata, Except.map, Store.getex, hok, habsent]

/-- Closed instance of C3's theorem: cookie `session=abc123` (and,
separately, header `Session: abc123`) against a store with no sessions. -/
theorem unknown_credential_unauthenticated_witness :
    (inspect_request_metadata acceptParse (some (.ok "session=abc123")) none
        (some emptyStore)).1 = .error .BadCredential ∧
    (inspect_request_metadata acceptParse none (some (.ok "abc123"))
        (some emptyStore)).1 = .error .BadCredential ∧
    ServiceError.BadCredential.get_code = Code.Unauthenticated ∧
    ServiceError.BadCredential.get_code ≠ Code.Internal ∧
    ∀ e : UuidError, ServiceError.BadCredential ≠ .Uuid e :=
  unknown_credential_unauthenticated acceptParse none emptyStore
    "session=abc123" "abc123" [("session", "abc123")]
    rfl rfl (by decide) (by decide)

/-- C2 counterexample: the claim says a stored value that fails identity
parsing is classified to a data-loss-class status.  On the code, with the
stored value `"not-a-uuid"` under credential `abc123`, resolution fails
with the `Uuid` parse error, whose status (`error.rs` line 222) is
`InvalidArgument` — not `DataLoss` (`DataLoss` is reserved for the
`TryFrom` variant). -/
theorem malformed_record_not_data_loss_cex :
    (inspect_request_metadata rejectParse (some (.ok "session=abc123")) none
        (some malformedStore)).1 = .error (.Uuid ⟨"not-a-uuid"⟩) ∧
    (ServiceError.Uuid ⟨"not-a-uuid"⟩).get_code = Code.InvalidArgument ∧
    (ServiceError.Uuid ⟨"not-a-uuid"⟩).get_code ≠ Code.DataLoss := by decide

/-- C2 as amended: a present credential whose stored value fails identity
parsing resolves, on both paths, to the distinct `Uuid` parse error,
classified `InvalidArgument` (not to the data-loss class) — and is never
silently coerced to the `BadCredential`/unauthenticated outcome. -/
theorem malformed_record_distinct_parse_error
    (uuidParse : String → Except UuidError Uuid)
    (sessionHeader : Option (Except ToStrError String))
    (store : Store) (raw cred v : String) (jar : List (String × String))
    (e : UuidError)
    (hok : store.ok = true) (hval : store.value cred = some v)
    (hparse : uuidParse v = .error e)
    (hjar : buildJar raw = .ok jar) (hget : jarGet jar "session" = some cred) :
    (inspect_request_metadata uuidParse (some (.ok raw)) sessionHeader
        (some store)).1 = .error (.Uuid e) ∧
    (inspect_request_metadata uuidParse none (some (.ok cred))
        (some store)).1 = .error (.Uuid e) ∧
    (ServiceError.Uuid e).get_code = Code.InvalidArgument ∧
    (ServiceError.Uuid e).get_code ≠ Code.Unauthenticated ∧
    ServiceError.Uuid e ≠ .BadCredential := by
  refine ⟨?_, ?_, rfl, fun h => Code.noConfusion h,
    fun h => ServiceError.noConfusion h⟩
  · rcases sessionHeader with _ | r
    · simp [inspect_request_metadata, Except.map, hjar, hget, Store.getex,
        hok, hval, hparse]
    · rcases r with e' | s <;>
        simp [inspect_request_metadata, Except.map, hjar, hget, Store.getex,
          hok, hval, hparse]
  · simp [inspect_request_metadata, Except.map, Store.getex, hok, hval, hparse]

/-- Closed instance of C2's amended theorem at the malformed record
`abc123 ↦ "not-a-uuid"`. -/
theorem malformed_record_distinct_parse_error_witness :
    (inspect_request_metadata rejectParse (some (.ok "session=abc123")) none
        (some malformedStore)).1 = .error (.Uuid ⟨"not-a-uuid"⟩) ∧
    (inspect_request_metadata rejectParse none (some (.ok "abc123"))
        (some malformedStore)).1 = .error (.Uuid ⟨"not-a-uuid"⟩) ∧
    (ServiceError.Uuid ⟨"not-a-uuid"⟩).get_code = Code.InvalidArgument ∧
    (ServiceError.Uuid ⟨"not-a-uuid"⟩).get_code ≠ Code.Unauthenticated ∧
    ServiceError.Uuid ⟨"not-a-uuid"⟩ ≠ .BadCredential :=
  malformed_record_distinct_parse_error rejectParse none malformedStore
    "session=abc123" "abc123" "not-a-uuid" [("session", "abc123")]
    ⟨"not-a-uuid"⟩ rfl (by decide) rfl (by decide) (by decide)

/-- C4: every successful resolution — on the cookie path and on the
`Session`-header path alike — performs the get-and-refresh lookup with
the 24-hour window: the store afterwards carries expiry exactly
`86400` seconds (`Duration::hours(24).whole_seconds()`) for the
credential that was read. -/
theorem successful_resolution_refreshes_expiry
    (uuidParse : String → Except UuidError Uuid)
    (sessionHeader : Option (Except ToStrError String))
    (store : Store) (raw cred v : String) (jar : List (String × String))
    (uid : Uuid)
    (hok : store.ok = true) (hval : store.value cred = some v)
    (hparse : uuidParse v = .ok uid)
    (hjar : buildJar raw = .ok jar) (hget : jarGet jar "session" = some cred) :
    sessionExpirySeconds = 86400 ∧
    inspect_request_metadata uuidParse (some (.ok raw)) sessionHeader
        (some store) =
      (.ok (some ⟨cred, uid⟩),
       some (store.refreshExpiry cred sessionExpirySeconds)) ∧
    inspect_request_metadata uuidParse none (some (.ok cred)) (some store) =
      (.ok (some ⟨cred, uid⟩),
       some (store.refreshExpiry cred sessionExpirySeconds)) ∧
    (store.refreshExpiry cred sessionExpirySeconds).expiry cred = some 86400 := by
  refine ⟨rfl, ?_, ?_, by simp [Store.refreshExpiry, sessionExpirySeconds]⟩
  · rcases sessionHeader with _ | r
    · simp [inspect_request_metadata, Except.map, hjar, hget, Store.getex,
        hok, hval, hparse]
    · rcases r with e | s <;>
        simp [inspect_request_metadata, Except.map, hjar, hget, Store.getex,
          hok, hval, hparse]
  · simp [inspect_request_metadata, Except.map, Store.getex, hok, hval, hparse]

/-- Closed instance of C4's theorem: reading `abc123` against the
one-session store leaves its expiry at exactly 86400 seconds. -/
theorem successful_resolution_refreshes_expiry_witness :
    sessionExpirySeconds = 86400 ∧
    inspect_request_metadata acceptParse (some (.ok "session=abc123")) none
        (some fixtureStore) =
      (.ok (some ⟨"abc123", ⟨"11111111-2222-3333-4444-555555555555"⟩⟩),
       some (fixtureStore.refreshExpiry "abc123" sessionExpirySeconds)) ∧
    inspect_request_metadata acceptParse none (some (.ok "abc123"))
        (some fixtureStore) =
      (.ok (some ⟨"abc123", ⟨"11111111-2222-3333-4444-555555555555"⟩⟩),
       some (fixtureStore.refreshExpiry "abc123" sessionExpirySeconds)) ∧
    (fixtureStore.refreshExpiry "abc123" sessionExpirySeconds).expiry "abc123"
      = some 86400 :=
  successful_resolution_refreshes_expiry acceptParse none fixtureStore
    "session=abc123" "abc123" "11111111-2222-3333-4444-555555555555"
    [("session", "abc123")] ⟨"11111111-2222-3333-4444-555555555555"⟩
    rfl (by decide) rfl (by decide) (by decide)

/-- C10: when the request carries a cookie header that parses but holds
no cookie named `session`, the first match arm already fires: resolution
returns without consulting the `Session` header (the result is the same
for every `sessionHeader`, including a valid credential present in the
store), no lookup touches the store, and `insert_empty_extension` leaves
the inner handler an empty container — the request proceeds
unauthenticated. -/
theorem cookie_without_session_shadows_header
    (uuidParse : String → Except UuidError Uuid)
    (sessionHeader : Option (Except ToStrError String))
    (store : Store) (raw : String) (jar : List (String × String))
    (hjar : buildJar raw = .ok jar)
    (hnosession : jarGet jar "session" = none) :
    inspect_request_metadata uuidParse (some (.ok raw)) sessionHeader
        (some store) = (.ok none, some store) ∧
    resolveSession uuidParse (some (.ok raw)) sessionHeader (some store)
      = (.ok ⟨none⟩, some store) := by
  have h1 : inspect_request_metadata uuidParse (some (.ok raw)) sessionHeader
      (some store) = (.ok none, some store) := by
    rcases sessionHeader with _ | r
    · simp [inspect_request_metadata, Except.map, hjar, hnosession]
    · rcases r with e | s <;>
        simp [inspect_request_metadata, Except.map, hjar, hnosession]
  exact ⟨h1, by simp [resolveSession, h1]⟩

/-- Closed instance of C10's theorem: cookie header `other=1` and a
`Session: abc123` header whose credential does exist in the store — the
header is still ignored and the request proceeds unauthenticated with the
store untouched. -/
theorem cookie_without_session_shadows_header_witness :
    inspect_request_metadata acceptParse (some (.ok "other=1"))
        (some (.ok "abc123")) (some fixtureStore) = (.ok none, some fixtureStore) ∧
    resolveSession acceptParse (some (.ok "other=1")) (some (.ok "abc123"))
        (some fixtureStore) = (.ok ⟨none⟩, some fixtureStore) :=
  cookie_without_session_shadows_header acceptParse (some (.ok "abc123"))
    fixtureStore "other=1" [("other", "1")] (by decide) (by decide)

end Demo
